import Mathlib

/-!
Verification of the note-taking backend: a shallow embedding of the note
store (models.py, class Note) and the HTTP handler layer (api.py), with
theorems about partial updates, ordering, search, tag derivation, and the
validation invariants.  Timestamps are modelled as naturals, request bodies
as records of optional strings, and the relational engine's ORDER BY as a
stable sort of the table rows kept in insertion order.
-/

/-- ASCII whitespace removed by Python's str.strip(). -/
def pySpace (c : Char) : Bool :=
  c = ' ' || c = '\t' || c = '\n' || c = '\r' || c = '\x0b' || c = '\x0c'

/-- Strip leading and trailing whitespace from a character list. -/
def stripChars (l : List Char) : List Char :=
  ((l.dropWhile pySpace).reverse.dropWhile pySpace).reverse

/-- Model of Python str.strip(). -/
def pyStrip (s : String) : String := ⟨stripChars s.data⟩

/-- Model of Python str.split(','): split at every comma, keeping empty pieces. -/
def splitComma : List Char → List (List Char)
  | [] => [[]]
  | c :: rest =>
    if c = ',' then [] :: splitComma rest
    else
      match splitComma rest with
      | [] => [[c]]
      | h :: t => (c :: h) :: t

/-- Truthiness of an optional string exactly as Python evaluates it:
None and the empty string are falsy. -/
def truthy : Option String → Bool
  | none => false
  | some s => s ≠ ""

/-- SQL LIKE matching over characters: a percent sign matches any run of
characters (some suffix of the subject continues the match), an underscore
matches exactly one character, anything else matches itself. -/
def likeM : List Char → List Char → Bool
  | [], s => s.isEmpty
  | c :: p, s =>
    if c = '%' then
      s.tails.any (fun t => likeM p t)
    else
      match s with
      | [] => false
      | d :: s2 => if c = '_' then likeM p s2 else c = d && likeM p s2

/-- Lowercased character list of a string (SQL lower(), ASCII letters only,
matching Char.toLower). -/
def lowerS (s : String) : List Char := s.data.map Char.toLower

/-- Lexicographic comparison of character lists by code point, the order
Python's sorted() uses on strings. -/
def charListLe : List Char → List Char → Bool
  | [], _ => true
  | _ :: _, [] => false
  | a :: as, b :: bs =>
    if a.toNat < b.toNat then true
    else if b.toNat < a.toNat then false
    else charListLe as bs

/-- The ascending string order of Python's sorted(). -/
def strLe (a b : String) : Prop := charListLe a.data b.data = true

instance : DecidableRel strLe := fun _ _ => instDecidableEqBool _ _

/-- Model of SQLAlchemy column.ilike(pattern): lower(column) LIKE lower(pattern). -/
def ilike (col pat : String) : Bool := likeM (lowerS pat) (lowerS col)

/-- The "%term%" pattern the source interpolates around a search term. -/
def likePat (term : String) : String := "%" ++ term ++ "%"

/-- A persisted note row (models.py, table notes). -/
structure NoteRec where
  id : Nat
  title : String
  content : String
  tags : Option String
  created_at : Nat
  updated_at : Nat
deriving DecidableEq, Repr

/-- The notes table: rows in insertion order plus the next fresh primary key. -/
structure Store where
  notes : List NoteRec
  nextId : Nat
deriving DecidableEq, Repr

/-- The empty database. -/
def Store.init : Store := ⟨[], 1⟩

/-- Table well-formedness: rows listed in id order and ids below the next key. -/
def Store.WF (s : Store) : Prop :=
  s.notes.Pairwise (fun a b => a.id < b.id) ∧ ∀ n ∈ s.notes, n.id < s.nextId

instance (s : Store) : Decidable s.WF :=
  inferInstanceAs (Decidable (_ ∧ _))

/-- The comparison ORDER BY created_at DESC sorts by: a comes no later
than b when b's creation time is at most a's. -/
def createdGe (a b : NoteRec) : Prop := b.created_at ≤ a.created_at

instance : DecidableRel createdGe := fun _ _ => Nat.decLe _ _

instance : IsTotal NoteRec createdGe := ⟨fun a b => Nat.le_total b.created_at a.created_at⟩

instance : IsTrans NoteRec createdGe := ⟨fun _ _ _ h1 h2 => Nat.le_trans h2 h1⟩

/-- One deterministic refinement of the engine's ORDER BY created_at DESC:
a stable insertion sort of the table rows.  SQL fixes only that the result
is a permutation of the rows sorted by the key; the order of tied rows is
not specified (the query gives no secondary sort key), so only
order-insensitive or non-strict-sortedness consequences of this definition
reflect guarantees of the program — the engine's actual obligation is
captured separately by engineOrderByDesc. -/
def orderByCreatedDesc (l : List NoteRec) : List NoteRec := l.insertionSort createdGe

/-- The relational engine's contract for the ORDER BY created_at DESC query
the source issues (models.py get_all_notes has no secondary sort key): any
permutation of the rows that is sorted by descending creation time is a
permitted answer; the relative order of tied rows is left open. -/
def engineOrderByDesc (l out : List NoteRec) : Prop :=
  out.Perm l ∧ List.Pairwise createdGe out

namespace Note

/-- models.py Note.create_note together with the engine's INSERT: the row gets
the next key and the current time for both timestamps. -/
def create_note (s : Store) (now : Nat) (title content : String) (tags : Option String) :
    NoteRec × Store :=
  let note : NoteRec :=
    { id := s.nextId, title := title, content := content, tags := tags,
      created_at := now, updated_at := now }
  (note, { notes := s.notes ++ [note], nextId := s.nextId + 1 })

/-- models.py Note.get_all_notes. -/
def get_all_notes (s : Store) : List NoteRec := orderByCreatedDesc s.notes

/-- models.py Note.get_note_by_id. -/
def get_note_by_id (s : Store) (note_id : Nat) : Option NoteRec :=
  s.notes.find? (fun n => n.id = note_id)

/-- models.py Note.update_note: overwrite exactly the provided fields,
refresh updated_at, commit; absent id gives back none. -/
def update_note (s : Store) (now : Nat) (note_id : Nat)
    (title content tags : Option String) : Option NoteRec × Store :=
  match get_note_by_id s note_id with
  | some old =>
    let upd : NoteRec :=
      { old with
        title := title.getD old.title
        content := content.getD old.content
        tags := match tags with | some t => some t | none => old.tags
        updated_at := now }
    (some upd, { s with notes := s.notes.map (fun n => if n.id = note_id then upd else n) })
  | none => (none, s)

/-- models.py Note.delete_note. -/
def delete_note (s : Store) (note_id : Nat) : Bool × Store :=
  match get_note_by_id s note_id with
  | some _ => (true, { s with notes := s.notes.filter (fun n => ¬ n.id = note_id) })
  | none => (false, s)

/-- models.py Note.search_notes: title ilike %term% OR content ilike %term%,
then ORDER BY created_at DESC. -/
def search_notes (s : Store) (search_term : String) : List NoteRec :=
  orderByCreatedDesc (s.notes.filter
    (fun n => ilike n.title (likePat search_term) || ilike n.content (likePat search_term)))

/-- models.py Note.get_notes_by_tag: tags ilike %tag% (a NULL tags column
never satisfies LIKE), then ORDER BY created_at DESC. -/
def get_notes_by_tag (s : Store) (tag : String) : List NoteRec :=
  orderByCreatedDesc (s.notes.filter
    (fun n => match n.tags with
      | some t => ilike t (likePat tag)
      | none => false))

end Note

/-- A parsed JSON request body for the note endpoints: any subset of the
three fields may be present. -/
structure NoteData where
  title : Option String
  content : Option String
  tags : Option String
deriving DecidableEq, Repr

/-- The JSON envelope payloads produced by api.py. -/
inductive Payload where
  | notesList (data : List NoteRec) (count : Nat)
  | note (data : NoteRec)
  | noteMsg (data : NoteRec) (message : String)
  | msg (message : String)
  | tagList (data : List String)
  | err (error : String)
  | errs (errors : List String)
deriving DecidableEq, Repr

namespace Api

/-- api.py validate_note_data. -/
def validate_note_data (d : NoteData) : List String :=
  (if truthy d.title = false ∨ pyStrip (d.title.getD "") = "" then ["Title is required"]
   else []) ++
  (if truthy d.content = false ∨ pyStrip (d.content.getD "") = "" then ["Content is required"]
   else [])

/-- api.py get_notes (GET /api/notes): a truthy search wins over a truthy
tag, else the tag filter, else everything. -/
def get_notes (s : Store) (search tag : Option String) : Payload × Nat :=
  let notes :=
    if truthy search then Note.search_notes s (search.getD "")
    else if truthy tag then Note.get_notes_by_tag s (tag.getD "")
    else Note.get_all_notes s
  (.notesList notes notes.length, 200)

/-- api.py get_note (GET /api/notes/<id>). -/
def get_note (s : Store) (note_id : Nat) : Payload × Nat :=
  match Note.get_note_by_id s note_id with
  | none => (.err "Note not found", 404)
  | some n => (.note n, 200)

/-- api.py create_note (POST /api/notes); a missing or empty body is falsy. -/
def create_note (s : Store) (now : Nat) (body : Option NoteData) :
    Payload × Nat × Store :=
  match body with
  | none => (.err "No data provided", 400, s)
  | some d =>
    let errors := validate_note_data d
    if errors ≠ [] then (.errs errors, 400, s)
    else
      let r := Note.create_note s now (pyStrip (d.title.getD "")) (pyStrip (d.content.getD ""))
        (if truthy d.tags then some (pyStrip (d.tags.getD "")) else none)
      (.noteMsg r.1 "Note created successfully", 201, r.2)

/-- api.py update_note (PUT /api/notes/<id>): existence first, then body,
then blank checks on provided title and content, then the store update.
The final none branch is Python's unreachable attribute failure on a
vanished row, reported through the generic handler with a rollback. -/
def update_note (s : Store) (now : Nat) (note_id : Nat) (body : Option NoteData) :
    Payload × Nat × Store :=
  match Note.get_note_by_id s note_id with
  | none => (.err "Note not found", 404, s)
  | some _ =>
    match body with
    | none => (.err "No data provided", 400, s)
    | some d =>
      if d.title.isSome ∧ pyStrip (d.title.getD "") = "" then
        (.err "Title cannot be empty", 400, s)
      else if d.content.isSome ∧ pyStrip (d.content.getD "") = "" then
        (.err "Content cannot be empty", 400, s)
      else
        let r := Note.update_note s now note_id
          (if truthy d.title then some (pyStrip (d.title.getD "")) else none)
          (if truthy d.content then some (pyStrip (d.content.getD "")) else none)
          (if truthy d.tags then some (pyStrip (d.tags.getD "")) else none)
        match r.1 with
        | some n => (.noteMsg n "Note updated successfully", 200, r.2)
        | none => (.err "Internal server error", 500, s)

/-- api.py delete_note (DELETE /api/notes/<id>). -/
def delete_note (s : Store) (note_id : Nat) : Payload × Nat × Store :=
  match Note.get_note_by_id s note_id with
  | none => (.err "Note not found", 404, s)
  | some _ =>
    let r := Note.delete_note s note_id
    if r.1 then (.msg "Note deleted successfully", 200, r.2)
    else (.err "Failed to delete note", 500, r.2)

/-- The tag tokens one note contributes in api.py get_tags: a falsy tags
field (NULL or empty) contributes nothing, else split on commas and strip
each token. -/
def noteTokens (n : NoteRec) : List String :=
  match n.tags with
  | none => []
  | some t => if t = "" then [] else (splitComma t.data).map (fun l => pyStrip ⟨l⟩)

/-- api.py get_tags (GET /api/tags): union the tokens of all notes into a
set and return them sorted ascending. -/
def get_tags (s : Store) : Payload × Nat :=
  let all_tags := ((Note.get_all_notes s).flatMap noteTokens).dedup
  (.tagList (all_tags.insertionSort strLe), 200)

end Api

/-- One API request against the store. -/
inductive ApiOp where
  | createOp (now : Nat) (body : Option NoteData)
  | updateOp (now : Nat) (note_id : Nat) (body : Option NoteData)
  | deleteOp (note_id : Nat)
deriving Repr

/-- Apply one request to the store, keeping only the resulting state. -/
def applyOp (s : Store) : ApiOp → Store
  | .createOp now body => (Api.create_note s now body).2.2
  | .updateOp now note_id body => (Api.update_note s now note_id body).2.2
  | .deleteOp note_id => (Api.delete_note s note_id).2.2

/-- Run a request sequence from the empty database. -/
def runOps (ops : List ApiOp) : Store := ops.foldl applyOp Store.init

/-- The data-model invariant of the spec: every stored row has a nonblank
title and content. -/
def TitlesOK (s : Store) : Prop := ∀ n ∈ s.notes, n.title ≠ "" ∧ n.content ≠ ""

/-- A character list free of the LIKE metacharacters. -/
def noWild (w : List Char) : Prop := ∀ c ∈ w, c ≠ '%' ∧ c ≠ '_'

instance (w : List Char) : Decidable (noWild w) :=
  inferInstanceAs (Decidable (∀ c ∈ w, _ ∧ _))

/-- The search predicate in the words of the spec: the term occurs as a
case-insensitive substring of the title or of the content. -/
def specSearchMatch (term : String) (n : NoteRec) : Bool :=
  decide (lowerS term <:+: lowerS n.title) || decide (lowerS term <:+: lowerS n.content)

/-- The per-note tag tokens in the words of the spec: every non-null tags
string is split on commas and each token trimmed. -/
def specNoteTokens (n : NoteRec) : List String :=
  match n.tags with
  | none => []
  | some t => (splitComma t.data).map (fun l => pyStrip ⟨l⟩)

/-- Fixture: a stored note used to exercise the update operation. -/
def c1Note : NoteRec := ⟨1, "Old title", "Old content", some "a,b", 3, 3⟩

/-- Fixture: a one-note store. -/
def c1Store : Store := ⟨[c1Note], 2⟩

/-- Fixture: a store with two notes sharing a creation time and one newer
note, for the ordering claim. -/
def c3Store : Store :=
  ⟨[⟨1, "first", "x", none, 5, 5⟩, ⟨2, "second", "y", none, 5, 5⟩, ⟨3, "third", "z", none, 9, 9⟩], 4⟩

/-- Fixture: a note carrying tags, for the tags-update claim. -/
def c4Note : NoteRec := ⟨1, "t", "c", some "old", 3, 3⟩

/-- Fixture: store for the tags-update claim. -/
def c4Store : Store := ⟨[c4Note], 2⟩

/-- Fixture: a tagged note for the query-precedence claim. -/
def c5a : NoteRec := ⟨1, "alpha", "a", some "x", 1, 1⟩

/-- Fixture: an untagged note for the query-precedence claim. -/
def c5b : NoteRec := ⟨2, "beta", "b", none, 2, 2⟩

/-- Fixture: store for the query-precedence claim. -/
def c5Store : Store := ⟨[c5a, c5b], 3⟩

/-- Fixture: a note whose title a wildcard search term matches. -/
def c6Note : NoteRec := ⟨1, "abc", "x", none, 5, 5⟩

/-- Fixture: store for the search-semantics counterexample. -/
def c6Store : Store := ⟨[c6Note], 2⟩

/-- Fixture: the two notes of the spec's search example. -/
def c6PyStore : Store :=
  ⟨[⟨1, "Python Programming", "c", none, 5, 5⟩, ⟨2, "JavaScript Guide", "d", none, 6, 6⟩], 3⟩

/-- Fixture: a note for the blank-update-rejection claim. -/
def c7Note : NoteRec := ⟨1, "Keep", "Body", some "k", 4, 4⟩

/-- Fixture: store for the blank-update-rejection claim. -/
def c7Store : Store := ⟨[c7Note], 2⟩

/-- Fixture: a note whose tags column holds the empty string. -/
def c8Note : NoteRec := ⟨1, "t", "c", some "", 4, 4⟩

/-- Fixture: store for the tag-derivation counterexample. -/
def c8Store : Store := ⟨[c8Note], 2⟩

/-- Fixture: the three tagged notes of the spec's tag example. -/
def c8WStore : Store :=
  ⟨[⟨1, "t", "c", some "work,important", 5, 5⟩, ⟨2, "u", "d", some "personal,important", 6, 6⟩,
    ⟨3, "v", "e", some "work,urgent", 7, 7⟩], 4⟩

/-! ### Theorems -/

/-- C1: through the store's update operation on an existing note, exactly the
provided (non-absent) fields are overwritten, every omitted field (and the id
and creation time) is left identical, updated_at is refreshed to the current
time and is strictly greater than the previous value whenever the clock has
advanced, and updating a non-existent id returns absent. -/
theorem c1_update_note_frame (s : Store) (now note_id : Nat)
    (title content tags : Option String) :
    (Note.get_note_by_id s note_id = none →
      Note.update_note s now note_id title content tags = (none, s)) ∧
    (∀ old : NoteRec, Note.get_note_by_id s note_id = some old →
      old.updated_at < now →
      ∃ upd : NoteRec,
        (Note.update_note s now note_id title content tags).1 = some upd ∧
        upd.title = title.getD old.title ∧
        upd.content = content.getD old.content ∧
        upd.tags = tags.or old.tags ∧
        upd.id = old.id ∧
        upd.created_at = old.created_at ∧
        upd.updated_at = now ∧
        old.updated_at < upd.updated_at ∧
        (Note.update_note s now note_id title content tags).2.notes =
          s.notes.map (fun n => if n.id = note_id then upd else n)) := by
  constructor
  · intro h
    simp only [Note.update_note, h]
  · intro old hfind hlt
    refine ⟨{ old with
        title := title.getD old.title
        content := content.getD old.content
        tags := match tags with | some t => some t | none => old.tags
        updated_at := now }, ?_, rfl, rfl, ?_, rfl, rfl, rfl, hlt, ?_⟩
    · simp only [Note.update_note, hfind]
    · cases tags <;> rfl
    · simp only [Note.update_note, hfind]

/-- Witness for C1 at a concrete store: updating only the title refreshes
updated_at and leaves the other fields identical. -/
theorem c1_update_note_frame_witness :
    ∃ upd : NoteRec,
      (Note.update_note c1Store 10 1 (some "New") none none).1 = some upd ∧
      upd.title = (some "New").getD c1Note.title ∧
      upd.content = (none : Option String).getD c1Note.content ∧
      upd.tags = (none : Option String).or c1Note.tags ∧
      upd.id = c1Note.id ∧
      upd.created_at = c1Note.created_at ∧
      upd.updated_at = 10 ∧
      c1Note.updated_at < upd.updated_at ∧
      (Note.update_note c1Store 10 1 (some "New") none none).2.notes =
        c1Store.notes.map (fun n => if n.id = 1 then upd else n) :=
  (c1_update_note_frame c1Store 10 1 (some "New") none none).2 c1Note (by decide) (by decide)

/-- C7: a PUT update of an existing note whose provided title trims to the
empty string is rejected with 400 and "Title cannot be empty", and, when the
title check passes, a provided content trimming to empty is rejected with 400
and "Content cannot be empty"; in both cases the store is returned untouched,
so no field of the record, updated_at included, changes. -/
theorem c7_update_blank_rejected (s : Store) (now note_id : Nat) (d : NoteData)
    (old : NoteRec) (hfind : Note.get_note_by_id s note_id = some old) :
    (d.title.isSome ∧ pyStrip (d.title.getD "") = "" →
      Api.update_note s now note_id (some d) = (.err "Title cannot be empty", 400, s)) ∧
    (¬(d.title.isSome ∧ pyStrip (d.title.getD "") = "") →
      d.content.isSome ∧ pyStrip (d.content.getD "") = "" →
      Api.update_note s now note_id (some d) = (.err "Content cannot be empty", 400, s)) := by
  constructor
  · intro h
    simp only [Api.update_note, hfind]
    rw [if_pos h]
  · intro h1 h2
    simp only [Api.update_note, hfind]
    rw [if_neg h1, if_pos h2]

/-- Witness for C7: a whitespace-only title is rejected and the store is
unchanged. -/
theorem c7_update_blank_rejected_witness :
    Api.update_note c7Store 9 1 (some ⟨some "   ", none, none⟩) =
      (.err "Title cannot be empty", 400, c7Store) :=
  (c7_update_blank_rejected c7Store 9 1 ⟨some "   ", none, none⟩ c7Note (by decide)).1
    (by decide)

/-- C10: the PUT handler checks existence before reading the body: a
non-existent id yields 404 "Note not found" whatever the body is, and a 400
"No data provided" response can only arise when the note exists. -/
theorem c10_update_existence_first (s : Store) (now note_id : Nat) (body : Option NoteData) :
    (Note.get_note_by_id s note_id = none →
      Api.update_note s now note_id body = (.err "Note not found", 404, s)) ∧
    ((Api.update_note s now note_id body).1 = .err "No data provided" →
      (Note.get_note_by_id s note_id).isSome = true) := by
  constructor
  · intro h
    simp only [Api.update_note, h]
  · intro h
    cases hfind : Note.get_note_by_id s note_id with
    | some _ => rfl
    | none =>
      simp only [Api.update_note, hfind] at h
      exact absurd h (by decide)

/-- Witness for C10: with an empty store every body gets 404, and a 400
"No data provided" answer on a stored note implies the lookup succeeded. -/
theorem c10_update_existence_first_witness :
    Api.update_note Store.init 7 1 (some ⟨some "x", none, none⟩) =
      (.err "Note not found", 404, Store.init) :=
  (c10_update_existence_first Store.init 7 1 (some ⟨some "x", none, none⟩)).1 (by decide)

/-- Passing validation means: title and content are present, truthy, and
nonblank after trimming. -/
theorem validate_eq_nil_iff (d : NoteData) :
    Api.validate_note_data d = [] ↔
      (truthy d.title = true ∧ pyStrip (d.title.getD "") ≠ "") ∧
      (truthy d.content = true ∧ pyStrip (d.content.getD "") ≠ "") := by
  unfold Api.validate_note_data
  constructor
  · intro h
    by_cases h1 : truthy d.title = false ∨ pyStrip (d.title.getD "") = ""
    · rw [if_pos h1] at h
      exact absurd h (by simp)
    · by_cases h2 : truthy d.content = false ∨ pyStrip (d.content.getD "") = ""
      · rw [if_neg h1, if_pos h2] at h
        exact absurd h (by simp)
      · rw [not_or] at h1 h2
        have hb1 : truthy d.title = true := by
          cases hbt : truthy d.title
          · exact absurd hbt h1.1
          · rfl
        have hb2 : truthy d.content = true := by
          cases hbc : truthy d.content
          · exact absurd hbc h2.1
          · rfl
        exact ⟨⟨hb1, h1.2⟩, hb2, h2.2⟩
  · rintro ⟨⟨ht, ht'⟩, hc, hc'⟩
    rw [if_neg, if_neg]
    · rfl
    · rintro (h | h)
      · rw [hc] at h
        cases h
      · exact hc' h
    · rintro (h | h)
      · rw [ht] at h
        cases h
      · exact ht' h

/-- A fresh id is found right after the appended row when all existing ids
are smaller. -/
theorem find?_append_fresh (l : List NoteRec) (note : NoteRec)
    (h : ∀ x ∈ l, x.id ≠ note.id) :
    (l ++ [note]).find? (fun n => n.id = note.id) = some note := by
  rw [List.find?_append]
  have hnone : l.find? (fun n => n.id = note.id) = none := by
    rw [List.find?_eq_none]
    intro x hx
    simp only [decide_eq_true_eq]
    exact h x hx
  rw [hnone]
  simp [List.find?]

/-- C2: for every valid body, creating a note and fetching it by the returned
id yields a record whose title and content are the trimmed inputs and whose
created_at equals its updated_at. -/
theorem c2_create_then_fetch (s : Store) (hwf : s.WF) (now : Nat) (d : NoteData)
    (hval : Api.validate_note_data d = []) :
    ∃ note : NoteRec, ∃ s2 : Store,
      Api.create_note s now (some d) = (.noteMsg note "Note created successfully", 201, s2) ∧
      Note.get_note_by_id s2 note.id = some note ∧
      note.title = pyStrip (d.title.getD "") ∧
      note.content = pyStrip (d.content.getD "") ∧
      note.created_at = note.updated_at := by
  refine ⟨(Note.create_note s now (pyStrip (d.title.getD "")) (pyStrip (d.content.getD ""))
      (if truthy d.tags then some (pyStrip (d.tags.getD "")) else none)).1,
    (Note.create_note s now (pyStrip (d.title.getD "")) (pyStrip (d.content.getD ""))
      (if truthy d.tags then some (pyStrip (d.tags.getD "")) else none)).2,
    ?_, ?_, rfl, rfl, rfl⟩
  · simp only [Api.create_note, hval, ne_eq, not_true_eq_false, if_false]
  · exact find?_append_fresh s.notes _ (fun x hx => Nat.ne_of_lt (hwf.2 x hx))

/-- Witness for C2 on the empty store. -/
theorem c2_create_then_fetch_witness :
    ∃ note : NoteRec, ∃ s2 : Store,
      Api.create_note Store.init 6 (some ⟨some " T ", some "C", none⟩) =
        (.noteMsg note "Note created successfully", 201, s2) ∧
      Note.get_note_by_id s2 note.id = some note ∧
      note.title = pyStrip ((some " T " : Option String).getD "") ∧
      note.content = pyStrip ((some "C" : Option String).getD "") ∧
      note.created_at = note.updated_at :=
  c2_create_then_fetch Store.init (by decide) 6 ⟨some " T ", some "C", none⟩ (by decide)

/-- The create handler preserves the nonblank-fields invariant. -/
theorem titlesOK_create (s : Store) (now : Nat) (body : Option NoteData)
    (h : TitlesOK s) : TitlesOK (Api.create_note s now body).2.2 := by
  cases body with
  | none => exact h
  | some d =>
    by_cases hval : Api.validate_note_data d = []
    · have hv := (validate_eq_nil_iff d).mp hval
      simp only [Api.create_note, hval, ne_eq, not_true_eq_false, if_false]
      intro n hn
      rcases List.mem_append.mp hn with hn | hn
      · exact h n hn
      · rcases List.mem_singleton.mp hn with rfl
        exact ⟨hv.1.2, hv.2.2⟩
    · simp only [Api.create_note, ne_eq, hval, not_false_eq_true, if_true]
      exact h

/-- The update handler preserves the nonblank-fields invariant. -/
theorem titlesOK_update (s : Store) (now note_id : Nat) (body : Option NoteData)
    (h : TitlesOK s) : TitlesOK (Api.update_note s now note_id body).2.2 := by
  cases hfind : Note.get_note_by_id s note_id with
  | none => simpa only [Api.update_note, hfind] using h
  | some old =>
    cases body with
    | none => simpa only [Api.update_note, hfind] using h
    | some d =>
      simp only [Api.update_note, hfind]
      by_cases h1 : d.title.isSome ∧ pyStrip (d.title.getD "") = ""
      · rw [if_pos h1]
        exact h
      · rw [if_neg h1]
        by_cases h2 : d.content.isSome ∧ pyStrip (d.content.getD "") = ""
        · rw [if_pos h2]
          exact h
        · rw [if_neg h2]
          simp only [Note.update_note, hfind]
          intro n hn
          rcases List.mem_map.mp hn with ⟨m, hm, hmn⟩
          by_cases hid : m.id = note_id
          · rw [if_pos hid] at hmn
            subst hmn
            constructor
            · cases htr : truthy d.title with
              | false =>
                simp only [htr, if_false, Option.getD_none]
                exact (h old (List.mem_of_find?_eq_some hfind)).1
              | true =>
                simp only [htr, if_true, Option.getD_some]
                intro hc
                apply h1
                refine ⟨?_, hc⟩
                cases hdt : d.title with
                | none => rw [hdt] at htr; cases htr
                | some t => rfl
            · cases htr : truthy d.content with
              | false =>
                simp only [htr, if_false, Option.getD_none]
                exact (h old (List.mem_of_find?_eq_some hfind)).2
              | true =>
                simp only [htr, if_true, Option.getD_some]
                intro hc
                apply h2
                refine ⟨?_, hc⟩
                cases hdc : d.content with
                | none => rw [hdc] at htr; cases htr
                | some t => rfl
          · rw [if_neg hid] at hmn
            subst hmn
            exact h m hm
  
/-- The delete handler preserves the nonblank-fields invariant. -/
theorem titlesOK_delete (s : Store) (note_id : Nat)
    (h : TitlesOK s) : TitlesOK (Api.delete_note s note_id).2.2 := by
  cases hfind : Note.get_note_by_id s note_id with
  | none => simpa only [Api.delete_note, hfind] using h
  | some old =>
    simp only [Api.delete_note, hfind, Note.delete_note, if_true]
    intro n hn
    exact h n (List.mem_of_mem_filter hn)

/-- Every request preserves the nonblank-fields invariant. -/
theorem titlesOK_applyOp (s : Store) (op : ApiOp) (h : TitlesOK s) :
    TitlesOK (applyOp s op) := by
  cases op with
  | createOp now body => exact titlesOK_create s now body h
  | updateOp now note_id body => exact titlesOK_update s now note_id body h
  | deleteOp note_id => exact titlesOK_delete s note_id h

/-- C9: starting from the empty database, no sequence of API requests can
produce a stored note with an empty title or empty content; every successful
create and update leaves only nonblank fields in the store. -/
theorem c9_nonblank_reachable (ops : List ApiOp) :
    ∀ n ∈ (runOps ops).notes, n.title ≠ "" ∧ n.content ≠ "" := by
  have key : ∀ (rest : List ApiOp) (s : Store), TitlesOK s → TitlesOK (rest.foldl applyOp s) := by
    intro rest
    induction rest with
    | nil => exact fun s h => h
    | cons op tl ih => exact fun s h => ih _ (titlesOK_applyOp s op h)
  exact key ops Store.init (fun n hn => absurd hn (List.not_mem_nil n))

/-- Witness for C9: after one valid create, the stored note has nonblank
title and content. -/
theorem c9_nonblank_reachable_witness :
    (⟨1, "T", "C", none, 5, 5⟩ : NoteRec).title ≠ "" ∧
    (⟨1, "T", "C", none, 5, 5⟩ : NoteRec).content ≠ "" :=
  c9_nonblank_reachable [.createOp 5 (some ⟨some "T", some "C", none⟩)]
    ⟨1, "T", "C", none, 5, 5⟩ (by decide)

/-- C4 counterexample: on the update path a tags value that is present but
empty is NOT passed through to the store — the stored tags field keeps its
old value "old" instead of becoming the trimmed provided value "". -/
theorem c4_counterexample :
    Api.update_note c4Store 9 1 (some ⟨none, none, some ""⟩) =
      (.noteMsg ⟨1, "t", "c", some "old", 3, 9⟩ "Note updated successfully", 200,
        ⟨[⟨1, "t", "c", some "old", 3, 9⟩], 2⟩) ∧
    some "old" ≠ some (pyStrip "") := by
  decide

/-- C4 amended: when the update payload contains a non-empty tags value, the
value is trimmed and passed through, so the returned record's tags equal the
trimmed value (which may be empty for whitespace-only tags — accepted with
status 200 rather than rejected, unlike title and content); a provided
empty-string tags value is treated as absent and leaves tags unchanged. -/
theorem c4_update_tags_passthrough (s : Store) (now note_id : Nat) (d : NoteData)
    (old : NoteRec) (t : String)
    (hfind : Note.get_note_by_id s note_id = some old)
    (htags : d.tags = some t)
    (h1 : ¬(d.title.isSome ∧ pyStrip (d.title.getD "") = ""))
    (h2 : ¬(d.content.isSome ∧ pyStrip (d.content.getD "") = "")) :
    ∃ upd : NoteRec, ∃ s2 : Store,
      Api.update_note s now note_id (some d) =
        (.noteMsg upd "Note updated successfully", 200, s2) ∧
      (t ≠ "" → upd.tags = some (pyStrip t)) ∧
      (t = "" → upd.tags = old.tags) := by
  simp only [Api.update_note, hfind]
  rw [if_neg h1, if_neg h2]
  simp only [Note.update_note, hfind]
  refine ⟨_, _, rfl, fun ht => ?_, fun ht => ?_⟩
  · simp only [htags, truthy, Option.getD_some]
    rw [decide_eq_true (show t ≠ "" from ht)]
    rfl
  · subst ht
    simp only [htags, truthy, Option.getD_some]
    rfl

/-- Witness for C4: whitespace-only tags are accepted and stored trimmed to
the empty string. -/
theorem c4_update_tags_passthrough_witness :
    ∃ upd : NoteRec, ∃ s2 : Store,
      Api.update_note c4Store 11 1 (some ⟨none, none, some " "⟩) =
        (.noteMsg upd "Note updated successfully", 200, s2) ∧
      (" " ≠ "" → upd.tags = some (pyStrip " ")) ∧
      (" " = "" → upd.tags = c4Note.tags) :=
  c4_update_tags_passthrough c4Store 11 1 ⟨none, none, some " "⟩ c4Note " "
    (by decide) rfl (by decide) (by decide)

/-- C5 counterexample: with both parameters given but search empty
(search = "", tag = "x"), the handler applies the tag filter instead of
giving the search priority — the response is not the search result. -/
theorem c5_counterexample :
    Api.get_notes c5Store (some "") (some "x") = (.notesList [c5a] 1, 200) ∧
    Note.search_notes c5Store "" = [c5b, c5a] ∧
    Payload.notesList [c5a] 1 ≠
      .notesList (Note.search_notes c5Store "") (Note.search_notes c5Store "").length := by
  decide

/-- C5 amended: a given non-empty search takes priority and the tag filter is
ignored; otherwise a given non-empty tag filter is applied; otherwise all
notes are returned (an empty-string parameter counts as not given); in every
case the response is the success envelope with the list and its count,
status 200. -/
theorem c5_get_notes_dispatch (s : Store) (search tag : Option String) :
    (truthy search = true →
      Api.get_notes s search tag =
        (.notesList (Note.search_notes s (search.getD ""))
          (Note.search_notes s (search.getD "")).length, 200)) ∧
    (truthy search = false → truthy tag = true →
      Api.get_notes s search tag =
        (.notesList (Note.get_notes_by_tag s (tag.getD ""))
          (Note.get_notes_by_tag s (tag.getD "")).length, 200)) ∧
    (truthy search = false → truthy tag = false →
      Api.get_notes s search tag =
        (.notesList (Note.get_all_notes s) (Note.get_all_notes s).length, 200)) := by
  refine ⟨fun hs => ?_, fun hs ht => ?_, fun hs ht => ?_⟩
  · simp [Api.get_notes, hs]
  · simp [Api.get_notes, hs, ht]
  · simp [Api.get_notes, hs, ht]

/-- Witness for C5: a non-empty search parameter routes to the search filter. -/
theorem c5_get_notes_dispatch_witness :
    Api.get_notes c5Store (some "alpha") (some "x") =
      (.notesList (Note.search_notes c5Store ((some "alpha" : Option String).getD ""))
        (Note.search_notes c5Store ((some "alpha" : Option String).getD "")).length, 200) :=
  (c5_get_notes_dispatch c5Store (some "alpha") (some "x")).1 (by decide)

/-- C3 counterexample: the query the code issues (ORDER BY created_at DESC,
no secondary sort key) permits an engine answer for the fixture store in
which the two rows tied at created_at = 5 come back in descending id order;
that answer satisfies the engine's whole obligation yet violates the claimed
id-ascending tie order, so the tie clause is not a guarantee of the program. -/
theorem c3_counterexample :
    engineOrderByDesc c3Store.notes
      [⟨3, "third", "z", none, 9, 9⟩, ⟨2, "second", "y", none, 5, 5⟩,
        ⟨1, "first", "x", none, 5, 5⟩] ∧
    ¬ List.Pairwise (fun x y => y.created_at ≤ x.created_at ∧
        (x.created_at = y.created_at → x.id < y.id))
      ([⟨3, "third", "z", none, 9, 9⟩, ⟨2, "second", "y", none, 5, 5⟩,
        ⟨1, "first", "x", none, 5, 5⟩] : List NoteRec) := by
  refine ⟨⟨?_, ?_⟩, ?_⟩ <;> decide

/-- C3 amended: getAllNotes returns all note records ordered by created_at
descending (newest first); the relative order of records with equal
created_at is not specified by the code, which gives the engine no secondary
sort key. -/
theorem c3_get_all_notes_sorted (s : Store) :
    engineOrderByDesc s.notes (Note.get_all_notes s) :=
  ⟨List.perm_insertionSort createdGe s.notes, List.sorted_insertionSort createdGe s.notes⟩

/-- The code-point lexicographic comparison is total. -/
theorem charListLe_total (as : List Char) : ∀ bs : List Char,
    charListLe as bs = true ∨ charListLe bs as = true := by
  induction as with
  | nil => intro bs; left; rfl
  | cons a as ih =>
    intro bs
    cases bs with
    | nil => right; rfl
    | cons b bs =>
      by_cases h1 : a.toNat < b.toNat
      · left
        simp [charListLe, h1]
      · by_cases h2 : b.toNat < a.toNat
        · right
          simp [charListLe, h2]
        · rcases ih bs with h | h
          · left
            simp [charListLe, h1, h2, h]
          · right
            simp [charListLe, h1, h2, h]

/-- The code-point lexicographic comparison is transitive. -/
theorem charListLe_trans (as : List Char) : ∀ bs cs : List Char,
    charListLe as bs = true → charListLe bs cs = true → charListLe as cs = true := by
  induction as with
  | nil => intro bs cs _ _; rfl
  | cons a as ih =>
    intro bs cs h1 h2
    cases bs with
    | nil => cases h1
    | cons b bs =>
      cases cs with
      | nil => cases h2
      | cons c cs =>
        by_cases hab : a.toNat < b.toNat
        · by_cases hbc : b.toNat < c.toNat
          · have hac : a.toNat < c.toNat := Nat.lt_trans hab hbc
            simp [charListLe, hac]
          · by_cases hcb : c.toNat < b.toNat
            · simp [charListLe, hbc, hcb] at h2
            · have hac : a.toNat < c.toNat := by omega
              simp [charListLe, hac]
        · by_cases hba : b.toNat < a.toNat
          · simp [charListLe, hab, hba] at h1
          · have h1x : charListLe as bs = true := by
              simpa [charListLe, hab, hba] using h1
            by_cases hbc : b.toNat < c.toNat
            · have hac : a.toNat < c.toNat := by omega
              simp [charListLe, hac]
            · by_cases hcb : c.toNat < b.toNat
              · simp [charListLe, hbc, hcb] at h2
              · have h2x : charListLe bs cs = true := by
                  simpa [charListLe, hbc, hcb] using h2
                have hac1 : ¬ a.toNat < c.toNat := by omega
                have hac2 : ¬ c.toNat < a.toNat := by omega
                simp [charListLe, hac1, hac2, ih bs cs h1x h2x]

/-- Membership in a note's contributed tag tokens, spelled out. -/
theorem mem_noteTokens (n : NoteRec) (x : String) :
    x ∈ Api.noteTokens n ↔ ∃ t, n.tags = some t ∧ t ≠ "" ∧
      x ∈ (splitComma t.data).map (fun cl => pyStrip ⟨cl⟩) := by
  cases htag : n.tags with
  | none => simp [Api.noteTokens, htag]
  | some t =>
    by_cases ht : t = ""
    · subst ht
      simp [Api.noteTokens, htag]
    · simp [Api.noteTokens, htag, ht]

/-- C8 counterexample: a stored note whose tags column holds the empty string
is non-null, so by the claim its split would contribute the empty token and
getAllTags would return [""] — but the code skips falsy tags and returns []. -/
theorem c8_counterexample :
    Api.get_tags c8Store = (.tagList [], 200) ∧
    specNoteTokens c8Note = [""] ∧
    (Api.get_tags c8Store).1 ≠ .tagList [""] := by
  decide

/-- C8 amended: getAllTags returns, with status 200, exactly the trimmed
comma-separated tokens of every note whose tags field is non-null AND
non-empty, sorted strictly ascending (so deduplicated); on the spec's example
notes it returns ["important", "personal", "urgent", "work"]. -/
theorem c8_get_tags_sorted_unique (s : Store) :
    (∃ l : List String,
      Api.get_tags s = (.tagList l, 200) ∧
      (∀ x, x ∈ l ↔ ∃ n ∈ s.notes, ∃ t, n.tags = some t ∧ t ≠ "" ∧
        x ∈ (splitComma t.data).map (fun cl => pyStrip ⟨cl⟩)) ∧
      List.Pairwise (fun a b => strLe a b ∧ a ≠ b) l) ∧
    Api.get_tags c8WStore =
      (.tagList ["important", "personal", "urgent", "work"], 200) := by
  refine ⟨⟨_, rfl, ?_, ?_⟩, by decide⟩
  · intro x
    rw [List.mem_insertionSort strLe, List.mem_dedup, List.mem_flatMap]
    constructor
    · rintro ⟨n, hn, hx⟩
      exact ⟨n, (List.mem_insertionSort createdGe).mp hn, (mem_noteTokens n x).mp hx⟩
    · rintro ⟨n, hn, hx⟩
      exact ⟨n, (List.mem_insertionSort createdGe).mpr hn, (mem_noteTokens n x).mpr hx⟩
  · exact List.Pairwise.and
      (@List.sorted_insertionSort String strLe _
        ⟨fun a b => charListLe_total a.data b.data⟩
        ⟨fun a b c => charListLe_trans a.data b.data c.data⟩ _)
      (((List.perm_insertionSort strLe _).nodup_iff).mpr (List.nodup_dedup _))

/-- Valid code points survive the Char.ofNat round trip. -/
theorem toNat_ofNat_valid (n : Nat) (h : n.isValidChar) : (Char.ofNat n).toNat = n := by
  simp [Char.ofNat, h, Char.ofNatAux, Char.toNat, UInt32.toNat, UInt32.ofNatTruncate,
    UInt32.ofNat]

/-- ASCII lowercasing never produces a LIKE metacharacter from a
non-metacharacter. -/
theorem toLower_noWild (w : List Char) (hw : noWild w) : noWild (w.map Char.toLower) := by
  intro c hc
  rcases List.mem_map.mp hc with ⟨d, hd, rfl⟩
  have hdw := hw d hd
  by_cases hP : d.toNat ≥ 65 ∧ d.toNat ≤ 90
  · have ht : (Char.toLower d).toNat = d.toNat + 32 := by
      simp only [Char.toLower]
      rw [if_pos hP]
      exact toNat_ofNat_valid _ (Or.inl (by omega))
    have h37 : ('%' : Char).toNat = 37 := rfl
    have h95 : ('_' : Char).toNat = 95 := rfl
    constructor <;> intro he <;> rw [he] at ht <;> omega
  · have ht : Char.toLower d = d := by
      simp only [Char.toLower]
      rw [if_neg hP]
    rw [ht]
    exact hdw

/-- A wildcard-free literal followed by a trailing percent matches exactly
the subjects it prefixes. -/
theorem likeM_lit (w : List Char) (hw : noWild w) : ∀ s, likeM (w ++ ['%']) s = true ↔ w <+: s := by
  induction w with
  | nil =>
    intro s
    simp only [List.nil_append]
    constructor
    · intro _
      exact List.nil_prefix
    · intro _
      simp only [likeM]
      rw [if_pos trivial, List.any_eq_true]
      exact ⟨[], List.mem_tails [] s |>.mpr List.nil_suffix, rfl⟩
  | cons c w ih =>
    intro s
    have hc := hw c (List.mem_cons_self c w)
    have hw2 : noWild w := fun x hx => hw x (List.mem_cons_of_mem c hx)
    rw [List.cons_append]
    cases s with
    | nil =>
      simp only [likeM]
      rw [if_neg hc.1]
      simp [List.prefix_nil]
    | cons d s2 =>
      simp only [likeM]
      rw [if_neg hc.1, if_neg hc.2]
      simp [Bool.and_eq_true, decide_eq_true_eq, ih hw2 s2, List.cons_prefix_cons]

/-- A leading percent matches exactly when some suffix matches the rest of
the pattern. -/
theorem likeM_star (p s : List Char) :
    likeM ('%' :: p) s = true ↔ ∃ t, t <:+ s ∧ likeM p t = true := by
  simp only [likeM]
  rw [if_pos trivial, List.any_eq_true]
  constructor
  · rintro ⟨t, ht, hm⟩
    exact ⟨t, (List.mem_tails t s).mp ht, hm⟩
  · rintro ⟨t, ht, hm⟩
    exact ⟨t, (List.mem_tails t s).mpr ht, hm⟩

/-- The %w% pattern of a wildcard-free w matches exactly the subjects
containing w as a contiguous segment. -/
theorem likeM_pat (w : List Char) (hw : noWild w) (s : List Char) :
    likeM ('%' :: (w ++ ['%'])) s = true ↔ w <:+: s := by
  rw [likeM_star]
  constructor
  · rintro ⟨t, hts, hm⟩
    exact List.infix_iff_prefix_suffix.mpr ⟨t, (likeM_lit w hw t).mp hm, hts⟩
  · intro h
    rcases List.infix_iff_prefix_suffix.mp h with ⟨t, hp, hsuf⟩
    exact ⟨t, hsuf, (likeM_lit w hw t).mpr hp⟩

/-- Lowercasing the interpolated pattern gives a percent-wrapped lowered term. -/
theorem lowerS_likePat (term : String) :
    lowerS (likePat term) = '%' :: (lowerS term ++ ['%']) := by
  unfold likePat lowerS
  rw [String.data_append, String.data_append]
  rw [show ("%" : String).data = ['%'] from rfl]
  simp [List.map_append, show Char.toLower '%' = '%' from rfl]

/-- For wildcard-free terms, the code's ilike call decides the spec's
case-insensitive substring relation. -/
theorem ilike_eq_spec (term : String) (hw : noWild term.data) (col : String) :
    ilike col (likePat term) = decide (lowerS term <:+: lowerS col) := by
  unfold ilike
  rw [lowerS_likePat, Bool.eq_iff_iff, decide_eq_true_eq]
  exact likeM_pat (lowerS term) (toLower_noWild term.data hw) (lowerS col)

/-- C6 counterexample: the term "a_c" is no substring of the note "abc"/"x",
yet searchNotes returns that note, because the underscore acts as a LIKE
wildcard rather than a literal. -/
theorem c6_counterexample :
    Note.search_notes c6Store "a_c" = [c6Note] ∧
    specSearchMatch "a_c" c6Note = false := by
  decide

/-- C6 amended: for search terms containing no LIKE metacharacter (% or _),
searchNotes returns exactly (up to the stated order) the notes whose title or
content contains the term case-insensitively, ordered by created_at
descending; in particular over the notes "Python Programming" and
"JavaScript Guide", searching "python" returns exactly the first. -/
theorem c6_search_substring (s : Store) (term : String) (hw : noWild term.data) :
    ((Note.search_notes s term).Perm
        (s.notes.filter (fun n => specSearchMatch term n)) ∧
      List.Pairwise createdGe (Note.search_notes s term)) ∧
    Note.search_notes c6PyStore "python" =
      [⟨1, "Python Programming", "c", none, 5, 5⟩] := by
  refine ⟨⟨?_, ?_⟩, by decide⟩
  · have hfe : s.notes.filter
        (fun n => ilike n.title (likePat term) || ilike n.content (likePat term)) =
        s.notes.filter (fun n => specSearchMatch term n) :=
      List.filter_congr (fun n _ => by
        rw [ilike_eq_spec term hw, ilike_eq_spec term hw]
        rfl)
    have hp := List.perm_insertionSort createdGe (s.notes.filter
      (fun n => ilike n.title (likePat term) || ilike n.content (likePat term)))
    nth_rewrite 2 [hfe] at hp
    exact hp
  · exact List.sorted_insertionSort createdGe _

/-- Witness for C6 on the spec's example store and term. -/
theorem c6_search_substring_witness :
    ((Note.search_notes c6PyStore "python").Perm
        (c6PyStore.notes.filter (fun n => specSearchMatch "python" n)) ∧
      List.Pairwise createdGe (Note.search_notes c6PyStore "python")) ∧
    Note.search_notes c6PyStore "python" =
      [⟨1, "Python Programming", "c", none, 5, 5⟩] :=
  c6_search_substring c6PyStore "python" (by decide)
